import Mathlib

/-!
Shallow embedding of `src/actions/actions.py`, the single source file of the
`chatbot-pkp` repository: a set of Rasa intent handlers answering questions
about a fictional Polish train network.

Modeling conventions:
* Python strings are Lean `String`s; `None`-able values are `Option`s;
  Python string truthiness (`if s:`) is `truthy` below.
* The Unicode case mappings of `str.lower`, `str.upper`, `str.title` and the
  regex class `\w` are modeled over the alphabet the program actually uses
  (ASCII plus the Polish diacritic letters); other code points are left
  fixed by the case maps.
* `difflib.get_close_matches(raw, KNOWN_CITIES, n=1, cutoff=0.6)` is embedded
  by translating `difflib.SequenceMatcher` (the junk heuristics never fire:
  there is no explicit junk predicate and every string involved is far below
  the 200-character autojunk threshold).  The float cutoff `0.6` and the
  float similarity ratios are modeled as exact rationals; for the short
  strings involved the float and rational comparisons agree.
* The wall clock read by `now_warsaw()` is modeled as an explicit
  minute-of-day parameter of `find_next_train` and of the schedule handler.
* `dispatcher.utter_message` calls are collected into the `messages` field of
  an `ActionResult`, in call order; the list returned by each `run` method
  (Rasa events) is its `events` field.
-/

namespace Chatbot

/-- Case-mapping table of the program's alphabet: each uppercase letter
(ASCII plus the Polish diacritics) paired with its lowercase form.  Models
Python `str.lower`/`str.upper` restricted to the characters the program
manipulates. -/
def lowerTable : List (Char × Char) :=
  [('A', 'a'), ('B', 'b'), ('C', 'c'), ('D', 'd'), ('E', 'e'), ('F', 'f'),
   ('G', 'g'), ('H', 'h'), ('I', 'i'), ('J', 'j'), ('K', 'k'), ('L', 'l'),
   ('M', 'm'), ('N', 'n'), ('O', 'o'), ('P', 'p'), ('Q', 'q'), ('R', 'r'),
   ('S', 's'), ('T', 't'), ('U', 'u'), ('V', 'v'), ('W', 'w'), ('X', 'x'),
   ('Y', 'y'), ('Z', 'z'),
   ('Ą', 'ą'), ('Ć', 'ć'), ('Ę', 'ę'), ('Ł', 'ł'), ('Ń', 'ń'), ('Ó', 'ó'),
   ('Ś', 'ś'), ('Ź', 'ź'), ('Ż', 'ż')]

/-- The inverse table, mapping lowercase letters to uppercase. -/
def upperTable : List (Char × Char) := lowerTable.map (fun p => (p.2, p.1))

/-- Python `str.lower` on a single character of the modeled alphabet. -/
def polishLower (c : Char) : Char := (lowerTable.lookup c).getD c

/-- Python `str.upper` on a single character of the modeled alphabet. -/
def polishUpper (c : Char) : Char := (upperTable.lookup c).getD c

/-- Python `str.lower`. -/
def pyLower (s : String) : String := String.mk (s.data.map polishLower)

/-- Python `str.upper`. -/
def pyUpper (s : String) : String := String.mk (s.data.map polishUpper)

/-- The whitespace characters stripped by Python `str.strip` and matched by
the regex class `\s` (the ASCII portion, which is all the program uses). -/
def pyIsSpace (c : Char) : Bool :=
  c = ' ' || c = '\t' || c = '\n' || c = '\r' || c = '\x0b' || c = '\x0c'

/-- Python `str.strip()`: remove leading and trailing whitespace. -/
def pyStrip (s : String) : String :=
  String.mk (((s.data.dropWhile pyIsSpace).reverse.dropWhile pyIsSpace).reverse)

/-- A cased character (a letter) of the modeled alphabet; Python `str.title`
upcases a cased character exactly when the preceding character is not cased. -/
def isCasedChar (c : Char) : Bool :=
  c.isAlpha || (lowerTable.lookup c).isSome || (upperTable.lookup c).isSome

/-- Worker for `pyTitle`: the flag records whether the previous character was
cased. -/
def pyTitleGo : Bool → List Char → List Char
  | _, [] => []
  | prevCased, c :: rest =>
    let cased := isCasedChar c
    let c' := if cased then (if prevCased then polishLower c else polishUpper c) else c
    c' :: pyTitleGo cased rest

/-- Python `str.title()`. -/
def pyTitle (s : String) : String := String.mk (pyTitleGo false s.data)

/-- The Latin Extended-A block `Ā-ſ`, kept verbatim by
`normalize_text`'s regex. -/
def isLatinExtA (c : Char) : Bool := 0x100 ≤ c.toNat && c.toNat ≤ 0x17F

/-- The regex class `\w` (word characters) over the modeled alphabet:
ASCII alphanumerics, underscore, and the Polish letters. -/
def isWordChar (c : Char) : Bool :=
  c.isAlphanum || c = '_' ||
    (lowerTable.lookup c).isSome || (upperTable.lookup c).isSome

/-- A character survives `re.sub(r"[^\w\s\-Ā-ſ]", "", text)`
exactly when it is a word character, whitespace, a hyphen, or in the Latin
Extended-A block. -/
def keepChar (c : Char) : Bool :=
  isWordChar c || pyIsSpace c || c = '-' || isLatinExtA c

/-! ## Reference data tables (verbatim from the source) -/

def SCHEDULES : List ((String × String) × List String) :=
  [(("Kraków", "Łódź"), ["04:45", "08:30", "12:20", "16:00", "20:15"]),
   (("Łódź", "Kraków"), ["05:10", "09:00", "13:45", "18:20"]),
   (("Warszawa", "Poznań"), ["06:00", "07:30", "09:00", "11:45", "14:30"]),
   (("Poznań", "Warszawa"), ["05:50", "10:10", "13:00", "17:25"]),
   (("Warszawa", "Kraków"), ["05:30", "09:40", "15:10", "19:00"])]

def DELAYS_CITY : List (String × String) :=
  [("Kraków", "utrudnienia: w kierunku Warszawa; na odcinku Kraków - Wadowice występują objazdy."),
   ("Łódź", "komunikacja zastępcza na odcinku Koluszki - Skierniewice (do odwołania)."),
   ("Warszawa", "utrudnienia w ruchu w stronę Radomia, możliwe krótkie opóźnienia."),
   ("Poznań", "brak ogłoszonych utrudnień.")]

def DELAYS_TRAIN : List (String × String) :=
  [("IC 1234", "opóźniony o 20 minut"),
   ("TLK 4567", "odwołany na odcinku Warszawa - Łódź"),
   ("EIP 123", "kursuje zgodnie z rozkładem")]

def TICKET_PRICES : List ((String × String) × String) :=
  [(("Łódź", "Kraków"), "50 zł (standardowy)"),
   (("Warszawa", "Poznań"), "80 zł (standardowy)"),
   (("Warszawa", "Kraków"), "90 zł (standardowy)")]

def PLATFORMS : List (String × String) :=
  [("IC 1234", "peron 5"),
   ("TLK 4567", "peron 2"),
   ("EIP 123", "peron 7")]

def TRAIN_TYPES : List ((String × String) × String) :=
  [(("Łódź", "Kraków"), "IC"),
   (("Warszawa", "Poznań"), "EIP"),
   (("Warszawa", "Kraków"), "EIP/IC (w zależności od kursu)")]

def TRAIN_SERVICES : List (String × List String) :=
  [("IC 1234", ["Wi-Fi", "restauracja", "klimatyzacja", "wagon sypialny (na wybranych kursach)"]),
   ("TLK 4567", ["klimatyzacja"]),
   ("EIP 123", ["Wi-Fi", "restauracja", "przedziały 1 klasy"])]

/-- `KNOWN_CITIES = sorted({c for pair in SCHEDULES for c in pair} | set(DELAYS_CITY))`:
the deduplicated union of all cities in schedule key pairs and delay keys,
sorted by code point (Python string order, which coincides with Lean's). -/
def KNOWN_CITIES : List String :=
  List.insertionSort (· ≤ ·)
    ((SCHEDULES.map (fun kv => kv.1.1) ++ SCHEDULES.map (fun kv => kv.1.2) ++
      DELAYS_CITY.map (fun kv => kv.1)).dedup)

def CITY_ALIASES : List (String × String) :=
  [("Krakowa", "Kraków"),
   ("Krakowie", "Kraków"),
   ("Kraków", "Kraków"),
   ("Krakow", "Kraków"),
   ("Łodzi", "Łódź"),
   ("Łódź", "Łódź"),
   ("Lodz", "Łódź"),
   ("Warszawy", "Warszawa"),
   ("Warszawie", "Warszawa"),
   ("Warszawa", "Warszawa"),
   ("Poznania", "Poznań"),
   ("Poznań", "Poznań")]

/-! ## difflib machinery

`get_close_matches(word, possibilities, n=1, cutoff=0.6)` as used by
`normalize_city`.  The three cutoff tests of difflib
(`real_quick_ratio`, `quick_ratio`, `ratio`) are equivalent to a single
`ratio >= cutoff` test because each is an upper bound of the next. -/

/-- Length of the common run of equal characters starting at the heads of the
two lists. -/
def commonRunLen : List Char → List Char → Nat
  | a :: as, b :: bs => if a = b then commonRunLen as bs + 1 else 0
  | _, _ => 0

/-- The length of the matching block starting at `a[i]`/`b[j]` and confined to
`a[i:ahi]`/`b[j:bhi]`. -/
def matchLenAt (a b : List Char) (ahi bhi i j : Nat) : Nat :=
  commonRunLen ((a.drop i).take (ahi - i)) ((b.drop j).take (bhi - j))

/-- `SequenceMatcher.find_longest_match(alo, ahi, blo, bhi)` with no junk
characters: the longest matching block of `a[alo:ahi]` and `b[blo:bhi]`,
with ties resolved towards the smallest start in `a`, then in `b` (the block
whose end is scanned first by difflib's row-by-row dynamic program is the one
recorded last).  Returns `(i, j, size)`; `(alo, blo, 0)` when the slices have
no common character, as in difflib. -/
def findLongestMatch (a b : List Char) (alo ahi blo bhi : Nat) : Nat × Nat × Nat :=
  let cands := (List.range' alo (ahi - alo)).flatMap (fun i =>
    (List.range' blo (bhi - blo)).map (fun j => (i, j, matchLenAt a b ahi bhi i j)))
  cands.foldl (fun best c => if best.2.2 < c.2.2 then c else best) (alo, blo, 0)

/-- Total size of all matching blocks of `get_matching_blocks`, computed by
the same divide-and-conquer recursion (the interval width shrinks at every
recursive call, so `a.length + 1` units of fuel always suffice). -/
def matchingSumGo (a b : List Char) : Nat → Nat → Nat → Nat → Nat → Nat
  | 0, _, _, _, _ => 0
  | fuel + 1, alo, ahi, blo, bhi =>
    let r := findLongestMatch a b alo ahi blo bhi
    let i := r.1
    let j := r.2.1
    let k := r.2.2
    if k = 0 then 0
    else
      k + (if alo < i && blo < j then matchingSumGo a b fuel alo i blo j else 0)
        + (if i + k < ahi && j + k < bhi then matchingSumGo a b fuel (i + k) ahi (j + k) bhi else 0)

/-- The `matches` count of `SequenceMatcher.ratio`: total size of all
matching blocks. -/
def matchingSum (a b : List Char) : Nat :=
  matchingSumGo a b (a.length + 1) 0 a.length 0 b.length

/-- `SequenceMatcher(None, a, b).ratio() = 2 * M / (len(a) + len(b))`,
as an exact rational; difflib returns `1.0` when both strings are empty. -/
def seqRatio (a b : List Char) : ℚ :=
  if a.length + b.length = 0 then 1
  else (2 * matchingSum a b : ℚ) / (a.length + b.length : ℚ)

/-- `difflib.get_close_matches(word, possibilities, n=1, cutoff=0.6)`:
keep the possibilities whose ratio against `word` reaches the cutoff
(`SequenceMatcher` is seeded with `a = possibility`, `b = word`), then return
the single best one — largest ratio, ties resolved towards the
lexicographically larger string, as `heapq.nlargest` does on
`(ratio, string)` pairs. -/
def get_close_matches (word : String) (poss : List String) : List String :=
  let scored := poss.filterMap (fun x =>
    let r := seqRatio x.data word.data
    if 3 / 5 ≤ r then some (r, x) else none)
  match scored with
  | [] => []
  | s :: rest =>
    [(rest.foldl (fun best c =>
        if best.1 < c.1 ∨ (best.1 = c.1 ∧ best.2 < c.2) then c else best) s).2]

/-! ## Normalization layer -/

/-- `normalize_text`: `None`/empty input gives `None`; otherwise strip
whitespace and delete every character outside
`{word characters, whitespace, hyphen, Latin Extended-A}`. -/
def normalize_text : Option String → Option String
  | none => none
  | some s =>
    if s = "" then none
    else some (String.mk ((pyStrip s).data.filter keepChar))

/-- The fold applied by `normalize_city`'s fourth step to an already
lower-cased string: `.replace("ł", "l")`. -/
def foldElChar (c : Char) : Char := if c = 'ł' then 'l' else c

/-- `raw.lower().replace("ł", "l")` as used in `normalize_city`. -/
def codeCityFold (s : String) : String := String.mk ((pyLower s).data.map foldElChar)

/-- `normalize_city`: `None`/empty input gives `None`; otherwise strip and
resolve through the five-step chain of the source: exact alias key,
case-insensitive alias key, fuzzy match against `KNOWN_CITIES`,
ł-folded case-insensitive match against `KNOWN_CITIES`, `.title()` fallback. -/
def normalize_city : Option String → Option String
  | none => none
  | some raw0 =>
    if raw0 = "" then none
    else
      let raw := pyStrip raw0
      match CITY_ALIASES.lookup raw with
      | some v => some v
      | none =>
        match CITY_ALIASES.find? (fun kv => pyLower kv.1 = pyLower raw) with
        | some kv => some kv.2
        | none =>
          match get_close_matches raw KNOWN_CITIES with
          | c :: _ => some c
          | [] =>
            match KNOWN_CITIES.find? (fun k => codeCityFold k = codeCityFold raw) with
            | some k => some k
            | none => some (pyTitle raw)

/-- The letter class of the train-number regex:
`[A-ZĄĆĘŁŃÓŚŻŹ]`. -/
def isTrainLetter (c : Char) : Bool :=
  ('A' ≤ c && c ≤ 'Z') || ['Ą', 'Ć', 'Ę', 'Ł', 'Ń', 'Ó', 'Ś', 'Ż', 'Ź'].contains c

/-- `re.match(r"([A-ZĄĆĘŁŃÓŚŻŹ]{1,4})\s*-?\s*(\d{1,5})", raw)`, returning the
two capture groups.  The regex is unanchored at the right end, so trailing
characters are ignored; the character classes are pairwise disjoint, so the
backtracking search is equivalent to this deterministic parse: an initial
letter run of length 1–4 (a longer run makes every alternative fail), optional
whitespace, an optional hyphen, optional whitespace, then a greedy run of at
most 5 digits, of which at least one must be present. -/
def trainMatch (cs : List Char) : Option (List Char × List Char) :=
  let letters := cs.takeWhile isTrainLetter
  if letters.length = 0 || 4 < letters.length then none
  else
    let rest := (cs.drop letters.length).dropWhile pyIsSpace
    let rest := match rest with
      | '-' :: r => r
      | r => r
    let rest := rest.dropWhile pyIsSpace
    let digits := rest.takeWhile Char.isDigit
    if digits.length = 0 then none
    else some (letters, digits.take 5)

/-- `normalize_train_number`: `None`/empty gives `None`; otherwise strip and
upper-case, then reformat as `"LETTERS DIGITS"` on a regex match and return
the upper-cased stripped input unchanged otherwise. -/
def normalize_train_number : Option String → Option String
  | none => none
  | some raw0 =>
    if raw0 = "" then none
    else
      let raw := pyUpper (pyStrip raw0)
      match trainMatch raw.data with
      | some lr => some (String.mk lr.1 ++ " " ++ String.mk lr.2)
      | none => some raw

/-! ## Next-train computation -/

/-- Split a character list on `':'`, as `t.split(":")`. -/
def splitOnColon : List Char → List (List Char)
  | [] => [[]]
  | c :: rest =>
    let r := splitOnColon rest
    if c = ':' then [] :: r
    else
      match r with
      | h :: t => (c :: h) :: t
      | [] => [[c]]

/-- The numeric value of a list of decimal digit characters, `None` when the
list is empty or holds a non-digit (where Python `int` raises). -/
def parseNatDigits : List Char → Option Nat :=
  fun cs =>
    if cs ≠ [] ∧ cs.all Char.isDigit then
      some (cs.foldl (fun acc c => acc * 10 + (c.toNat - 48)) 0)
    else none

/-- `time_str_to_minutes("HH:MM") = HH*60 + MM`.  The Python version raises
on malformed input (it calls `int` on the two `":"`-separated fields); the
embedding returns `0` there, and every theorem about it carries a
well-formedness hypothesis that keeps that default unreachable. -/
def time_str_to_minutes (t : String) : Nat :=
  match (splitOnColon t.data).map parseNatDigits with
  | [some h, some m] => h * 60 + m
  | _ => 0

/-- The decimal digit character for `n < 10`. -/
def digitChar (n : Nat) : Char :=
  match n with
  | 0 => '0' | 1 => '1' | 2 => '2' | 3 => '3' | 4 => '4'
  | 5 => '5' | 6 => '6' | 7 => '7' | 8 => '8' | _ => '9'

/-- Decimal rendering of a natural number (fuel-structured so that it
reduces in the kernel; the fuel `n + 1` always suffices). -/
def natDigitsGo : Nat → Nat → List Char → List Char
  | 0, _, acc => acc
  | fuel + 1, n, acc =>
    if n < 10 then digitChar n :: acc
    else natDigitsGo fuel (n / 10) (digitChar (n % 10) :: acc)

/-- Decimal rendering of a natural number, as Python `str`/`d` formatting. -/
def natRepr (n : Nat) : String := String.mk (natDigitsGo (n + 1) n [])

/-- Zero-pad a number to (at least) two digits, as the format spec `02d`. -/
def pad2 (n : Nat) : String :=
  if n < 10 then "0" ++ natRepr n else natRepr n

/-- `minutes_to_time_str(m) = f"{(m//60)%24:02d}:{m%60:02d}"`. -/
def minutes_to_time_str (m : Nat) : String :=
  pad2 ((m / 60) % 24) ++ ":" ++ pad2 (m % 60)

/-- `find_next_train(trains)` with the current wall-clock minute-of-day made
an explicit parameter (`now_warsaw()` reads the clock).  Python's `sorted` is
modeled by `insertionSort`: on `Nat` keys every comparison sort produces the
same list.  Returns the first sorted departure at or after `current_min`,
else wraps around to the earliest departure; an empty list gives `None`. -/
def find_next_train (trains : List String) (current_min : Nat) : Option String :=
  if trains = [] then none
  else
    let mins := List.insertionSort (· ≤ ·) (trains.map time_str_to_minutes)
    match mins.find? (fun m => current_min ≤ m) with
    | some m => some (minutes_to_time_str m)
    | none => mins.head?.map minutes_to_time_str

/-! ## Tracker view and dispatcher

Each handler receives a read-only snapshot of the conversation: slot values,
the latest message's intent name and extracted entities.  `utter_message`
calls are collected in order into `messages`; the Rasa event list returned by
`run` is `events`. -/

/-- One extracted entity of the latest user message: `ent.get("entity")` and
`ent.get("value")`. -/
structure Entity where
  entity : Option String
  value : Option String

/-- `tracker.latest_message`: classified intent name and extracted entities. -/
structure LatestMsg where
  intentName : Option String
  entities : List Entity

/-- The tracker snapshot a handler receives. -/
structure Tracker where
  slots : String → Option String
  latest : LatestMsg

/-- `tracker.get_slot(name)`. -/
def Tracker.getSlot (t : Tracker) (name : String) : Option String := t.slots name

/-- Python truthiness of an optional string: `None` and `""` are falsy. -/
def truthy : Option String → Bool
  | none => false
  | some s => !(s == "")

/-- Python `x or y` on optional strings. -/
def pyOr (x y : Option String) : Option String := if truthy x then x else y

/-- `next(tracker.get_latest_entity_values(name), None)`: the value of the
first entity of the given type, `None` when there is none. -/
def firstEntityValue (t : Tracker) (name : String) : Option String :=
  match t.latest.entities.find? (fun e => e.entity == some name) with
  | some e => e.value
  | none => none

/-- A Rasa event (the handlers of this program never construct one). -/
structure SlotEvent where
  slotName : String
  slotValue : Option String

/-- The outcome of one handler invocation: uttered messages in call order and
the event list returned by `run`. -/
structure ActionResult where
  messages : List String
  events : List SlotEvent

/-- Utter one message and return the empty event list. -/
def reply1 (m : String) : ActionResult := ⟨[m], []⟩

/-- The entity scan of `ActionShowSchedule.run`: walk the entity list,
filling the departure from `departure_city`/`from_city` entities and the
arrival from `arrival_city`/`to_city` entities whenever the current value is
falsy. -/
def scanScheduleEnts (ents : List Entity) (dep arr : Option String) :
    Option String × Option String :=
  ents.foldl (fun st ent =>
    let dep := st.1
    let arr := st.2
    let dep := if ent.entity == some "departure_city" && !(truthy dep) then ent.value else dep
    let arr := if ent.entity == some "arrival_city" && !(truthy arr) then ent.value else arr
    let dep := if ent.entity == some "from_city" && !(truthy dep) then ent.value else dep
    let arr := if ent.entity == some "to_city" && !(truthy arr) then ent.value else arr
    (dep, arr)) (dep, arr)

/-- The entity scan shared by the price and train-type handlers:
`departure_city` and `arrival_city` entities only. -/
def scanPairEnts (ents : List Entity) (dep arr : Option String) :
    Option String × Option String :=
  ents.foldl (fun st ent =>
    let dep := st.1
    let arr := st.2
    let dep := if ent.entity == some "departure_city" && !(truthy dep) then ent.value else dep
    let arr := if ent.entity == some "arrival_city" && !(truthy arr) then ent.value else arr
    (dep, arr)) (dep, arr)

/-- The entity scan of the delay handler: `delay_city` and `train_number`. -/
def scanDelayEnts (ents : List Entity) (city tn : Option String) :
    Option String × Option String :=
  ents.foldl (fun st ent =>
    let city := st.1
    let tn := st.2
    let city := if ent.entity == some "delay_city" && !(truthy city) then ent.value else city
    let tn := if ent.entity == some "train_number" && !(truthy tn) then ent.value else tn
    (city, tn)) (city, tn)

/-- The entity scan of the platform and services handlers: `train_number`. -/
def scanTrainEnt (ents : List Entity) (tn : Option String) : Option String :=
  ents.foldl (fun tn ent =>
    if ent.entity == some "train_number" && !(truthy tn) then ent.value else tn) tn

/-- Rendering of an optional string inside an f-string: `None` prints as
`"None"`. -/
def optStr : Option String → String
  | none => "None"
  | some s => s

/-- `ActionShowSchedule.run`, with the wall-clock minute-of-day as an
explicit parameter (it is consumed by `find_next_train`). -/
def ActionShowSchedule.run (t : Tracker) (currentMin : Nat) : ActionResult :=
  let st := scanScheduleEnts t.latest.entities
    (t.getSlot "departure_city") (t.getSlot "arrival_city")
  let departure := if truthy st.1 then normalize_city (normalize_text st.1) else none
  let arrival := if truthy st.2 then normalize_city (normalize_text st.2) else none
  match departure, arrival with
  | some d, some a =>
    if d == "" || a == "" then
      reply1 "Podaj proszę miasto początkowe i docelowe (np. 'z Łodzi do Krakowa')."
    else
      match SCHEDULES.lookup (d, a) with
      | some trains =>
        let intent := t.latest.intentName
        if intent == some "ask_schedule_next" || intent == some "ask_schedule" then
          let nt := optStr (find_next_train trains currentMin)
          reply1 s!"Najbliższy pociąg z {d} do {a} odjeżdża o {nt}."
        else if intent == some "ask_schedule_all" || intent == some "ask_schedule_connection" then
          let joined := String.intercalate ", " trains
          reply1 s!"Wszystkie dostępne odjazdy z {d} do {a}: {joined}."
        else
          let joined := String.intercalate ", " trains
          let nt := optStr (find_next_train trains currentMin)
          reply1 s!"Połączenia z {d} do {a}: {joined}. Najbliższy: {nt}."
      | none =>
        if (SCHEDULES.lookup (a, d)).isSome then
          reply1 s!"Rozkład jest dostępny w odwrotną stronę ({a} → {d}). Czy o to chodziło?"
        else
          match SCHEDULES.filter
              (fun kv => pyLower kv.1.1 == pyLower d || pyLower kv.1.2 == pyLower a) with
          | sample :: _ =>
            let s0 := sample.1.1
            let s1 := sample.1.2
            let joined := String.intercalate ", " sample.2
            reply1 s!"Nie mam rozkładu dla trasy {d} → {a}, ale mam informacje dla trasy {s0} → {s1}: {joined}."
          | [] => reply1 s!"Niestety nie mam rozkładu dla trasy {d} → {a}."
  | _, _ =>
    reply1 "Podaj proszę miasto początkowe i docelowe (np. 'z Łodzi do Krakowa')."

/-- `ActionShowDelay.run`. -/
def ActionShowDelay.run (t : Tracker) : ActionResult :=
  let intent := t.latest.intentName
  let st := scanDelayEnts t.latest.entities
    (t.getSlot "delay_city") (t.getSlot "train_number")
  let delay_city := if truthy st.1 then normalize_city (normalize_text st.1) else none
  let train_number := if truthy st.2 then normalize_train_number st.2 else none
  if intent == some "ask_delay_city" || intent == some "ask_delay" then
    match delay_city with
    | some c =>
      if c == "" then
        reply1 "Podaj proszę miasto, z którego chcesz sprawdzić opóźnienia (np. 'opóźnienia z Krakowa')."
      else
        match DELAYS_CITY.lookup c with
        | some info => reply1 s!"Aktualne informacje dla {c}: {info}."
        | none => reply1 s!"Brak informacji o opóźnieniach w {c}."
    | none =>
      reply1 "Podaj proszę miasto, z którego chcesz sprawdzić opóźnienia (np. 'opóźnienia z Krakowa')."
  else if intent == some "ask_delay_train" then
    match train_number with
    | some tn =>
      if tn == "" then reply1 "Podaj proszę numer pociągu (np. 'IC 1234')."
      else
        match DELAYS_TRAIN.lookup tn with
        | some info => reply1 s!"Pociąg {tn}: {info}."
        | none => reply1 s!"Brak informacji o opóźnieniach dla pociągu {tn}."
    | none => reply1 "Podaj proszę numer pociągu (np. 'IC 1234')."
  else
    let tryTrain : ActionResult :=
      match train_number with
      | some tn =>
        if tn == "" then
          reply1 "Nie rozumiem — podaj proszę miasto lub numer pociągu, którego dotyczy zapytanie o opóźnienia."
        else
          match DELAYS_TRAIN.lookup tn with
          | some info => reply1 s!"Pociąg {tn}: {info}."
          | none =>
            reply1 "Nie rozumiem — podaj proszę miasto lub numer pociągu, którego dotyczy zapytanie o opóźnienia."
      | none =>
        reply1 "Nie rozumiem — podaj proszę miasto lub numer pociągu, którego dotyczy zapytanie o opóźnienia."
    match delay_city with
    | some c =>
      if c == "" then tryTrain
      else
        match DELAYS_CITY.lookup c with
        | some info => reply1 s!"Aktualnie dla {c}: {info}."
        | none => tryTrain
    | none => tryTrain

/-- `ActionCheckSchedule.run`: the diagnostic stub.  Cities come from the
latest entities (first `from_city`/`to_city` value) with the route slots as
fallback; both present yields two messages, otherwise one prompt. -/
def ActionCheckSchedule.run (t : Tracker) : ActionResult :=
  let from_city := pyOr (firstEntityValue t "from_city") (t.getSlot "departure_city")
  let to_city := pyOr (firstEntityValue t "to_city") (t.getSlot "arrival_city")
  if !(truthy from_city) || !(truthy to_city) then
    reply1 "Podaj proszę miasto początkowe i docelowe."
  else
    let f := optStr from_city
    let g := optStr to_city
    ⟨[s!"Sprawdzam rozkład jazdy z {f} do {g}...",
      s!"Najbliższy pociąg z {f} do {g} odjeżdża o 12:45 🚆"], []⟩

/-- `ActionShowTicketPrice.run`. -/
def ActionShowTicketPrice.run (t : Tracker) : ActionResult :=
  let st := scanPairEnts t.latest.entities
    (t.getSlot "departure_city") (t.getSlot "arrival_city")
  let departure := if truthy st.1 then normalize_city (normalize_text st.1) else none
  let arrival := if truthy st.2 then normalize_city (normalize_text st.2) else none
  match departure, arrival with
  | some d, some a =>
    if d == "" || a == "" then
      reply1 "Podaj miasta początkowe i docelowe, np. 'ile kosztuje bilet z Łodzi do Krakowa'."
    else
      match pyOr (TICKET_PRICES.lookup (d, a)) (TICKET_PRICES.lookup (a, d)) with
      | some p =>
        if p == "" then
          reply1 s!"Brak danych o cenie biletu dla trasy {d} → {a}. Możesz spróbować innych wariantów (np. różni przewoźnicy)."
        else
          reply1 s!"Cena biletu z {d} do {a}: {p}."
      | none =>
        reply1 s!"Brak danych o cenie biletu dla trasy {d} → {a}. Możesz spróbować innych wariantów (np. różni przewoźnicy)."
  | _, _ =>
    reply1 "Podaj miasta początkowe i docelowe, np. 'ile kosztuje bilet z Łodzi do Krakowa'."

/-- `ActionShowPlatform.run`. -/
def ActionShowPlatform.run (t : Tracker) : ActionResult :=
  let tn0 := scanTrainEnt t.latest.entities (t.getSlot "train_number")
  let train_number := if truthy tn0 then normalize_train_number tn0 else none
  match train_number with
  | some tn =>
    if tn == "" then reply1 "Podaj numer pociągu, np. 'IC 1234'."
    else
      match PLATFORMS.lookup tn with
      | some p => reply1 s!"Pociąg {tn} odjeżdża z {p}."
      | none => reply1 s!"Brak danych o peronie dla pociągu {tn}."
  | none => reply1 "Podaj numer pociągu, np. 'IC 1234'."

/-- `ActionShowTrainType.run`. -/
def ActionShowTrainType.run (t : Tracker) : ActionResult :=
  let st := scanPairEnts t.latest.entities
    (t.getSlot "departure_city") (t.getSlot "arrival_city")
  let departure := if truthy st.1 then normalize_city (normalize_text st.1) else none
  let arrival := if truthy st.2 then normalize_city (normalize_text st.2) else none
  match departure, arrival with
  | some d, some a =>
    if d == "" || a == "" then
      reply1 "Podaj miasta początkowe i docelowe, np. 'jaki typ pociągu z Łodzi do Krakowa'."
    else
      match TRAIN_TYPES.lookup (d, a) with
      | some tt => reply1 s!"Na trasie {d} → {a} kursuje pociąg typu: {tt}."
      | none => reply1 s!"Brak danych o typie pociągu na trasie {d} → {a}."
  | _, _ =>
    reply1 "Podaj miasta początkowe i docelowe, np. 'jaki typ pociągu z Łodzi do Krakowa'."

/-- `ActionShowServices.run`. -/
def ActionShowServices.run (t : Tracker) : ActionResult :=
  let tn0 := scanTrainEnt t.latest.entities (t.getSlot "train_number")
  let train_number := if truthy tn0 then normalize_train_number tn0 else none
  match train_number with
  | some tn =>
    if tn == "" then reply1 "Podaj numer pociągu, np. 'IC 1234', abym mógł sprawdzić usługi."
    else
      match (TRAIN_SERVICES.lookup tn).getD [] with
      | [] => reply1 s!"Brak informacji o usługach w pociągu {tn}."
      | services =>
        let joined := String.intercalate ", " services
        reply1 s!"Pociąg {tn} oferuje: {joined}."
  | none => reply1 "Podaj numer pociągu, np. 'IC 1234', abym mógł sprawdzić usługi."

/-! ## Spec-side definitions

These follow the wording of the specification, to be compared with the
definitions translated from the source. -/

/-- The specification's diacritic fold: `ł`/`Ł` become `l`/`L`, everything
else is unchanged. -/
def foldDiacritic (c : Char) : Char :=
  if c = 'ł' then 'l' else if c = 'Ł' then 'L' else c

/-- The specification's step 4 key: fold `ł`/`Ł`, then lower-case.
(The source lower-cases first and then folds only `ł`; the two composites
are proved equal below.) -/
def specCityFold (s : String) : String :=
  pyLower (String.mk (s.data.map foldDiacritic))

/-- City normalization as the specification words it: a five-step chain on
the stripped input, first match wins — exact alias key, case-insensitive
alias key, single best fuzzy candidate with ratio at least 0.6 against the
known canonical city names, diacritic-folded case-insensitive comparison
with the known cities, title-cased input as fallback. -/
def normalize_city_spec (s : String) : String :=
  let raw := pyStrip s
  match CITY_ALIASES.lookup raw with
  | some v => v
  | none =>
    match CITY_ALIASES.find? (fun kv => pyLower kv.1 = pyLower raw) with
    | some kv => kv.2
    | none =>
      match get_close_matches raw KNOWN_CITIES with
      | c :: _ => c
      | [] =>
        match KNOWN_CITIES.find? (fun k => specCityFold k = specCityFold raw) with
        | some k => k
        | none => pyTitle raw

/-- Train-number normalization as the specification words it: upper-case and
trim, reformat a pattern match as `"LETTERS DIGITS"`, otherwise return the
upper-cased trimmed input unchanged. -/
def normalize_train_spec (s : String) : String :=
  let raw := pyUpper (pyStrip s)
  match trainMatch raw.data with
  | some lr => String.mk lr.1 ++ " " ++ String.mk lr.2
  | none => raw

/-! ## Helper lemmas -/

/-- A successful association-list lookup exhibits a member pair. -/
theorem mem_of_lookup_some {α β : Type} [BEq α] [LawfulBEq α] :
    ∀ {l : List (α × β)} {k : α} {v : β}, l.lookup k = some v → (k, v) ∈ l := by
  intro l
  induction l with
  | nil => intro k v h; simp [List.lookup] at h
  | cons p t ih =>
    intro k v h
    rw [List.lookup] at h
    by_cases hk : k == p.1
    · rw [hk] at h
      cases h
      have : k = p.1 := eq_of_beq hk
      subst this
      left
    · rw [Bool.of_not_eq_true hk] at h
      exact List.mem_cons_of_mem _ (ih h)

/-- The only letter whose lower case is `ł` is `Ł`. -/
theorem lower_eq_el_iff {c : Char} (h1 : c ≠ 'ł') (h2 : c ≠ 'Ł') :
    polishLower c ≠ 'ł' := by
  unfold polishLower
  cases hl : lowerTable.lookup c with
  | none => simpa using h1
  | some v =>
    have hmem : (c, v) ∈ lowerTable := mem_of_lookup_some hl
    have hfact : ∀ p ∈ lowerTable, p.2 = 'ł' → p.1 = 'Ł' := by decide
    intro hv
    exact h2 (hfact _ hmem (by simpa using hv))

/-- Folding `ł`/`Ł` and then lower-casing is the same as lower-casing and
then folding `ł` (what the source computes). -/
theorem fold_lower_comm (c : Char) :
    polishLower (foldDiacritic c) = foldElChar (polishLower c) := by
  by_cases h1 : c = 'ł'
  · subst h1; decide
  · by_cases h2 : c = 'Ł'
    · subst h2; decide
    · have hfold : foldDiacritic c = c := by simp [foldDiacritic, h1, h2]
      rw [hfold, foldElChar, if_neg (lower_eq_el_iff h1 h2)]

/-- The specification's step-4 key equals the source's. -/
theorem specCityFold_eq : specCityFold = codeCityFold := by
  funext s
  show pyLower (String.mk (s.data.map foldDiacritic))
      = String.mk ((pyLower s).data.map foldElChar)
  simp only [pyLower, codeCityFold, List.map_map]
  congr 1
  exact List.map_congr_left (fun c _ => fold_lower_comm c)

/-! ## Claims -/

/-- C1: for every non-empty raw input, `normalize_city` returns the result of
the first matching step of the five-step chain (exact alias, case-insensitive
alias, fuzzy match with ratio ≥ 0.6 against the known canonical cities,
ł-fold/lower-case comparison, title-cased fallback), the chain being applied
to the stripped input as the source does; in particular `"Krakow"` and
`"krakowie"` resolve to `"Kraków"` and `"Lodz"` to `"Łódź"`. -/
theorem C1_normalize_city_chain :
    (∀ s : String, s ≠ "" → normalize_city (some s) = some (normalize_city_spec s))
    ∧ normalize_city (some "Krakow") = some "Kraków"
    ∧ normalize_city (some "krakowie") = some "Kraków"
    ∧ normalize_city (some "Lodz") = some "Łódź" := by
  refine ⟨?_, by decide, by decide, by decide⟩
  intro s hs
  simp only [normalize_city, normalize_city_spec, specCityFold_eq, if_neg hs]
  cases h1 : CITY_ALIASES.lookup (pyStrip s) with
  | some v => rfl
  | none =>
    cases h2 : CITY_ALIASES.find? (fun kv => pyLower kv.1 = pyLower (pyStrip s)) with
    | some kv => rfl
    | none =>
      cases h3 : get_close_matches (pyStrip s) KNOWN_CITIES with
      | cons c rest => rfl
      | nil =>
        cases h4 : KNOWN_CITIES.find?
            (fun k => codeCityFold k = codeCityFold (pyStrip s)) with
        | some k => rfl
        | none => rfl

/-- C1 witness: the chain theorem applied at a concrete input. -/
theorem C1_normalize_city_chain_witness :
    normalize_city (some "Krakow") = some (normalize_city_spec "Krakow") :=
  C1_normalize_city_chain.1 "Krakow" (by decide)

/-- C2 counterexample: on the empty string the claim demands the upper-cased
trimmed input (`""`) back, but `normalize_train_number` returns `None`. -/
theorem C2_empty_string_refuted :
    normalize_train_number (some "") = none ∧
    normalize_train_number (some "") ≠ some "" := by
  exact ⟨rfl, by decide⟩

/-- C2 amended: for every NON-EMPTY input string, `normalize_train_number`
upper-cases and trims the input, reformats a pattern match as
`"LETTERS DIGITS"` and returns the upper-cased trimmed input unchanged on no
match; the three quoted examples hold. -/
theorem C2_normalize_train_number_amended :
    (∀ s : String, s ≠ "" → normalize_train_number (some s) = some (normalize_train_spec s))
    ∧ normalize_train_number (some "ic1234") = some "IC 1234"
    ∧ normalize_train_number (some "tlk-4567") = some "TLK 4567"
    ∧ normalize_train_number (some "xyz") = some "XYZ" := by
  refine ⟨?_, by decide, by decide, by decide⟩
  intro s hs
  simp only [normalize_train_number, normalize_train_spec, if_neg hs]
  cases h : trainMatch (pyUpper (pyStrip s)).data with
  | some lr => rfl
  | none => rfl

/-- C2 witness: the amended theorem applied at a concrete input. -/
theorem C2_normalize_train_number_amended_witness :
    normalize_train_number (some "ic1234") = some (normalize_train_spec "ic1234") :=
  C2_normalize_train_number_amended.1 "ic1234" (by decide)

/-- C8 counterexample: `normalize_city` does NOT return a string on absent or
empty input — both give `None`. -/
theorem C8_absent_empty_refuted :
    (normalize_city none).isSome = false ∧
    (normalize_city (some "")).isSome = false := by
  decide

/-- C8 amended: `normalize_city` is total and returns a present string for
every present non-empty input (possibly not in any table); absent or empty
input yields absent. -/
theorem C8_total_on_nonempty :
    (∀ s : String, s ≠ "" → (normalize_city (some s)).isSome = true)
    ∧ normalize_city none = none
    ∧ normalize_city (some "") = none := by
  refine ⟨?_, rfl, rfl⟩
  intro s hs
  simp only [normalize_city, if_neg hs]
  repeat' split
  all_goals rfl

/-- C8 witness: the amended theorem applied at a concrete input. -/
theorem C8_total_on_nonempty_witness :
    (normalize_city (some "zzz")).isSome = true :=
  C8_total_on_nonempty.1 "zzz" (by decide)

/-- C9: every canonical city appearing as an alias value occurs in a schedule
key pair or as a delay-table key. -/
theorem C9_alias_values_resolvable :
    ∀ kv ∈ CITY_ALIASES,
      (∃ k ∈ SCHEDULES, kv.2 = k.1.1 ∨ kv.2 = k.1.2)
      ∨ (∃ e ∈ DELAYS_CITY, kv.2 = e.1) := by
  decide

/-- C9 witness: the invariant applied at a concrete alias entry. -/
theorem C9_alias_values_resolvable_witness :
    (∃ k ∈ SCHEDULES, ("Krakowa", "Kraków").2 = k.1.1 ∨ ("Krakowa", "Kraków").2 = k.1.2)
    ∨ (∃ e ∈ DELAYS_CITY, ("Krakowa", "Kraków").2 = e.1) :=
  C9_alias_values_resolvable ("Krakowa", "Kraków") (by decide)

/-- C10: `normalize_text` yields absent exactly for absent or empty input;
a present non-empty input always yields a present string, which is the empty
string when cleaning removes every character (whitespace-only input, or input
of only disallowed characters). -/
theorem C10_normalize_text_empty :
    (∀ x : Option String, normalize_text x = none ↔ (x = none ∨ x = some ""))
    ∧ (∀ s : String, s ≠ "" → (normalize_text (some s)).isSome = true)
    ∧ normalize_text (some "   ") = some ""
    ∧ normalize_text (some "???") = some "" := by
  refine ⟨?_, ?_, by decide, by decide⟩
  · intro x
    cases x with
    | none => simp [normalize_text]
    | some s =>
      by_cases hs : s = ""
      · subst hs; simp [normalize_text]
      · simp [normalize_text, hs]
  · intro s hs
    simp [normalize_text, hs]

/-- C10 witness: whitespace-only input yields the present empty string. -/
theorem C10_normalize_text_empty_witness :
    (normalize_text (some "   ")).isSome = true :=
  C10_normalize_text_empty.2.1 "   " (by decide)

/-- In a sorted list, the first element at or above the threshold is minimal
among all elements at or above the threshold. -/
theorem find_first_ge {cur : Nat} :
    ∀ {l : List Nat}, l.Sorted (· ≤ ·) → ∀ {m : Nat},
      l.find? (fun x => cur ≤ x) = some m →
      cur ≤ m ∧ ∀ x ∈ l, cur ≤ x → m ≤ x := by
  intro l
  induction l with
  | nil => intro _ m h; simp at h
  | cons a t ih =>
    intro hs m h
    obtain ⟨hhead, htail⟩ := List.sorted_cons.mp hs
    by_cases ha : cur ≤ a
    · rw [List.find?_cons_of_pos _ (by simpa using ha)] at h
      cases h
      refine ⟨ha, ?_⟩
      intro x hx _
      rcases List.mem_cons.mp hx with rfl | hxt
      · exact Nat.le_refl _
      · exact hhead x hxt
    · rw [List.find?_cons_of_neg _ (by simpa using ha)] at h
      obtain ⟨h1, h2⟩ := ih htail h
      refine ⟨h1, ?_⟩
      intro x hx hcx
      rcases List.mem_cons.mp hx with rfl | hxt
      · exact absurd hcx ha
      · exact h2 x hxt hcx

/-- C3: on a non-empty list of well-formed `HH:MM` strings (those that
round-trip through parsing and re-rendering), `find_next_train` returns a
listed time that is the earliest one at or after the current minute-of-day,
or the earliest one overall when every listed time has passed; the empty
list yields absent; and the two quoted examples hold. -/
theorem C3_find_next_train_correct :
    (∀ (trains : List String) (cur : Nat), trains ≠ [] →
      (∀ t ∈ trains, minutes_to_time_str (time_str_to_minutes t) = t) →
      ∃ t ∈ trains, find_next_train trains cur = some t ∧
        (∀ u ∈ trains, cur ≤ time_str_to_minutes u →
          cur ≤ time_str_to_minutes t ∧ time_str_to_minutes t ≤ time_str_to_minutes u) ∧
        ((∀ u ∈ trains, time_str_to_minutes u < cur) →
          ∀ u ∈ trains, time_str_to_minutes t ≤ time_str_to_minutes u))
    ∧ (∀ cur : Nat, find_next_train [] cur = none)
    ∧ find_next_train ["05:10", "09:00", "13:45", "18:20"] 600 = some "13:45"
    ∧ find_next_train ["05:10", "09:00", "13:45", "18:20"] 1380 = some "05:10" := by
  refine ⟨?_, fun _ => rfl, by decide, by decide⟩
  intro trains cur hne hc
  have hperm : List.Perm (List.insertionSort (· ≤ ·) (trains.map time_str_to_minutes))
      (trains.map time_str_to_minutes) := List.perm_insertionSort _ _
  have hsort : (List.insertionSort (· ≤ ·) (trains.map time_str_to_minutes)).Sorted (· ≤ ·) :=
    List.sorted_insertionSort _ _
  simp only [find_next_train, if_neg hne]
  cases hf : (List.insertionSort (· ≤ ·) (trains.map time_str_to_minutes)).find?
      (fun m => cur ≤ m) with
  | some m =>
    have hmem : m ∈ trains.map time_str_to_minutes :=
      hperm.mem_iff.mp (List.mem_of_find?_eq_some hf)
    obtain ⟨u, hu, hum⟩ := List.mem_map.mp hmem
    obtain ⟨hcm, hmin⟩ := find_first_ge hsort hf
    refine ⟨u, hu, ?_, ?_, ?_⟩
    · rw [← hum]
      show some (minutes_to_time_str (time_str_to_minutes u)) = some u
      rw [hc u hu]
    · intro v hv hcv
      refine ⟨by rw [hum]; exact hcm, ?_⟩
      rw [hum]
      exact hmin _ (hperm.mem_iff.mpr (List.mem_map_of_mem _ hv)) hcv
    · intro hall v hv
      exact absurd (hum ▸ hcm) (Nat.not_le.mpr (hall u hu))
  | none =>
    have hnone : ∀ x ∈ List.insertionSort (· ≤ ·) (trains.map time_str_to_minutes),
        ¬ cur ≤ x := by
      intro x hx
      have := List.find?_eq_none.mp hf x hx
      simpa using this
    have hlen : (List.insertionSort (· ≤ ·) (trains.map time_str_to_minutes)).length
        = trains.length := by
      rw [hperm.length_eq, List.length_map]
    cases hmins : List.insertionSort (· ≤ ·) (trains.map time_str_to_minutes) with
    | nil =>
      exfalso
      rw [hmins] at hlen
      exact hne (List.length_eq_zero.mp hlen.symm)
    | cons m0 rest =>
      have hm0mem : m0 ∈ trains.map time_str_to_minutes := by
        rw [← hperm.mem_iff, hmins]
        exact List.mem_cons_self _ _
      obtain ⟨u, hu, hum⟩ := List.mem_map.mp hm0mem
      obtain ⟨hhead, _⟩ := List.sorted_cons.mp (hmins ▸ hsort)
      refine ⟨u, hu, ?_, ?_, ?_⟩
      · rw [← hum]
        show some (minutes_to_time_str (time_str_to_minutes u)) = some u
        rw [hc u hu]
      · intro v hv hcv
        have hvmem : time_str_to_minutes v ∈
            List.insertionSort (· ≤ ·) (trains.map time_str_to_minutes) :=
          hperm.mem_iff.mpr (List.mem_map_of_mem _ hv)
        exact absurd hcv (hnone _ hvmem)
      · intro _ v hv
        have hvmem : time_str_to_minutes v ∈ m0 :: rest := by
          rw [← hmins]
          exact hperm.mem_iff.mpr (List.mem_map_of_mem _ hv)
        rw [hum]
        rcases List.mem_cons.mp hvmem with he | hrest
        · rw [he]
        · exact hhead _ hrest

/-- C3 witness: the theorem applied at the concrete example list and a
reference time of 10:00. -/
theorem C3_find_next_train_correct_witness :
    ∃ t ∈ ["05:10", "09:00", "13:45", "18:20"],
      find_next_train ["05:10", "09:00", "13:45", "18:20"] 600 = some t ∧
      (∀ u ∈ ["05:10", "09:00", "13:45", "18:20"], 600 ≤ time_str_to_minutes u →
        600 ≤ time_str_to_minutes t ∧ time_str_to_minutes t ≤ time_str_to_minutes u) ∧
      ((∀ u ∈ ["05:10", "09:00", "13:45", "18:20"], time_str_to_minutes u < 600) →
        ∀ u ∈ ["05:10", "09:00", "13:45", "18:20"],
          time_str_to_minutes t ≤ time_str_to_minutes u) :=
  C3_find_next_train_correct.1 ["05:10", "09:00", "13:45", "18:20"] 600
    (by decide) (by decide)

/-- A tracker with no slots, no entities and no intent. -/
def emptyTracker : Tracker := ⟨fun _ => none, ⟨none, []⟩⟩

/-- A tracker carrying a departure and an arrival city in its slots, with no
entities and no intent. -/
def routeTracker (d a : String) : Tracker :=
  ⟨fun n => if n = "departure_city" then some d
    else if n = "arrival_city" then some a else none,
   ⟨none, []⟩⟩

/-- C4 counterexample: on a tracker with no cities, the diagnostic
schedule-check handler emits ONE message (the clarification prompt), not
two. -/
theorem C4_check_schedule_refuted :
    (ActionCheckSchedule.run emptyTracker).messages.length = 1 ∧
    (ActionCheckSchedule.run emptyTracker).messages.length ≠ 2 :=
  ⟨rfl, by decide⟩

/-- C4 amended: every handler emits exactly one reply on every code path,
except `action_check_schedule`, which emits exactly two when both cities
resolve to truthy values and one (a clarification prompt) otherwise. -/
theorem C4_reply_counts :
    ∀ (t : Tracker) (cur : Nat),
      (ActionShowSchedule.run t cur).messages.length = 1 ∧
      (ActionShowDelay.run t).messages.length = 1 ∧
      (ActionShowTicketPrice.run t).messages.length = 1 ∧
      (ActionShowPlatform.run t).messages.length = 1 ∧
      (ActionShowTrainType.run t).messages.length = 1 ∧
      (ActionShowServices.run t).messages.length = 1 ∧
      (ActionCheckSchedule.run t).messages.length =
        (if (truthy (pyOr (firstEntityValue t "from_city") (t.getSlot "departure_city")) &&
             truthy (pyOr (firstEntityValue t "to_city") (t.getSlot "arrival_city"))) = true
         then 2 else 1) := by
  intro t cur
  refine ⟨?_, ?_, ?_, ?_, ?_, ?_, ?_⟩
  · simp only [ActionShowSchedule.run]
    repeat' split
    all_goals rfl
  · simp only [ActionShowDelay.run]
    repeat' split
    all_goals rfl
  · simp only [ActionShowTicketPrice.run]
    repeat' split
    all_goals rfl
  · simp only [ActionShowPlatform.run]
    repeat' split
    all_goals rfl
  · simp only [ActionShowTrainType.run]
    repeat' split
    all_goals rfl
  · simp only [ActionShowServices.run]
    repeat' split
    all_goals rfl
  · cases hA : truthy (pyOr (firstEntityValue t "from_city") (t.getSlot "departure_city")) <;>
      cases hB : truthy (pyOr (firstEntityValue t "to_city") (t.getSlot "arrival_city")) <;>
      simp [ActionCheckSchedule.run, hA, hB, reply1]

/-- C4 witness: the amended count theorem applied at a concrete tracker. -/
theorem C4_reply_counts_witness :
    (ActionShowSchedule.run emptyTracker 0).messages.length = 1 ∧
    (ActionShowDelay.run emptyTracker).messages.length = 1 ∧
    (ActionShowTicketPrice.run emptyTracker).messages.length = 1 ∧
    (ActionShowPlatform.run emptyTracker).messages.length = 1 ∧
    (ActionShowTrainType.run emptyTracker).messages.length = 1 ∧
    (ActionShowServices.run emptyTracker).messages.length = 1 ∧
    (ActionCheckSchedule.run emptyTracker).messages.length =
      (if (truthy (pyOr (firstEntityValue emptyTracker "from_city")
              (emptyTracker.getSlot "departure_city")) &&
           truthy (pyOr (firstEntityValue emptyTracker "to_city")
              (emptyTracker.getSlot "arrival_city"))) = true
       then 2 else 1) :=
  C4_reply_counts emptyTracker 0

/-- C5: whenever the normalized pair is not a schedule key but the reversed
pair is, the schedule handler emits exactly the direction-confirmation
prompt and nothing else. -/
theorem C5_reverse_pair_prompt :
    ∀ (d a : String) (cur : Nat), d ≠ "" → a ≠ "" →
      normalize_city (normalize_text (some d)) = some d →
      normalize_city (normalize_text (some a)) = some a →
      SCHEDULES.lookup (d, a) = none →
      (SCHEDULES.lookup (a, d)).isSome = true →
      ActionShowSchedule.run (routeTracker d a) cur =
        ⟨[s!"Rozkład jest dostępny w odwrotną stronę ({a} → {d}). Czy o to chodziło?"], []⟩ := by
  intro d a cur hd ha hnd hna hfwd hrev
  simp [ActionShowSchedule.run, routeTracker, Tracker.getSlot, scanScheduleEnts,
    truthy, hd, ha, hnd, hna, hfwd, hrev, reply1]

/-- C5 witness: the theorem applied at the pair (Kraków, Warszawa), whose
reverse is the only one-directional schedule key. -/
theorem C5_reverse_pair_prompt_witness :
    ActionShowSchedule.run (routeTracker "Kraków" "Warszawa") 0 =
      ⟨["Rozkład jest dostępny w odwrotną stronę (Warszawa → Kraków). Czy o to chodziło?"], []⟩ :=
  C5_reverse_pair_prompt "Kraków" "Warszawa" 0 (by decide) (by decide)
    (by decide) (by decide) (by decide) (by decide)

/-- C6: the price lookup is symmetric with forward precedence — the reversed
key's price is replied when the forward key is absent, the forward key's
price when it is present, and the no-data reply appears exactly when neither
key is present.  (The hypothesis that the stored price is non-empty holds for
every entry of the concrete table; Python's `or` would treat an empty stored
string like a missing key.) -/
theorem C6_price_reverse_fallback :
    (∀ d a p : String, d ≠ "" → a ≠ "" →
      normalize_city (normalize_text (some d)) = some d →
      normalize_city (normalize_text (some a)) = some a →
      TICKET_PRICES.lookup (d, a) = none →
      TICKET_PRICES.lookup (a, d) = some p → p ≠ "" →
      ActionShowTicketPrice.run (routeTracker d a) =
        ⟨[s!"Cena biletu z {d} do {a}: {p}."], []⟩)
    ∧ (∀ d a p : String, d ≠ "" → a ≠ "" →
      normalize_city (normalize_text (some d)) = some d →
      normalize_city (normalize_text (some a)) = some a →
      TICKET_PRICES.lookup (d, a) = some p → p ≠ "" →
      ActionShowTicketPrice.run (routeTracker d a) =
        ⟨[s!"Cena biletu z {d} do {a}: {p}."], []⟩)
    ∧ (∀ d a : String, d ≠ "" → a ≠ "" →
      normalize_city (normalize_text (some d)) = some d →
      normalize_city (normalize_text (some a)) = some a →
      TICKET_PRICES.lookup (d, a) = none →
      TICKET_PRICES.lookup (a, d) = none →
      ActionShowTicketPrice.run (routeTracker d a) =
        ⟨[s!"Brak danych o cenie biletu dla trasy {d} → {a}. Możesz spróbować innych wariantów (np. różni przewoźnicy)."], []⟩) := by
  refine ⟨?_, ?_, ?_⟩
  · intro d a p hd ha hnd hna hfwd hrev hp
    simp [ActionShowTicketPrice.run, routeTracker, Tracker.getSlot, scanPairEnts,
      truthy, pyOr, hd, ha, hnd, hna, hfwd, hrev, hp, reply1]
  · intro d a p hd ha hnd hna hfwd hp
    simp [ActionShowTicketPrice.run, routeTracker, Tracker.getSlot, scanPairEnts,
      truthy, pyOr, hd, ha, hnd, hna, hfwd, hp, reply1]
  · intro d a hd ha hnd hna hfwd hrev
    simp [ActionShowTicketPrice.run, routeTracker, Tracker.getSlot, scanPairEnts,
      truthy, pyOr, hd, ha, hnd, hna, hfwd, hrev, reply1]

/-- C6 witness: the reverse-fallback conjunct applied at (Kraków, Łódź),
priced only under the reversed key. -/
theorem C6_price_reverse_fallback_witness :
    ActionShowTicketPrice.run (routeTracker "Kraków" "Łódź") =
      ⟨["Cena biletu z Kraków do Łódź: 50 zł (standardowy)."], []⟩ :=
  C6_price_reverse_fallback.1 "Kraków" "Łódź" "50 zł (standardowy)"
    (by decide) (by decide) (by decide) (by decide) (by decide) (by decide) (by decide)

/-- C7: every handler returns the empty event list on every branch — no slot
is set and no conversation state is mutated. -/
theorem C7_no_state_mutation :
    ∀ (t : Tracker) (cur : Nat),
      (ActionShowSchedule.run t cur).events = [] ∧
      (ActionShowDelay.run t).events = [] ∧
      (ActionCheckSchedule.run t).events = [] ∧
      (ActionShowTicketPrice.run t).events = [] ∧
      (ActionShowPlatform.run t).events = [] ∧
      (ActionShowTrainType.run t).events = [] ∧
      (ActionShowServices.run t).events = [] := by
  intro t cur
  refine ⟨?_, ?_, ?_, ?_, ?_, ?_, ?_⟩
  · simp only [ActionShowSchedule.run]
    repeat' split
    all_goals rfl
  · simp only [ActionShowDelay.run]
    repeat' split
    all_goals rfl
  · simp only [ActionCheckSchedule.run]
    repeat' split
    all_goals rfl
  · simp only [ActionShowTicketPrice.run]
    repeat' split
    all_goals rfl
  · simp only [ActionShowPlatform.run]
    repeat' split
    all_goals rfl
  · simp only [ActionShowTrainType.run]
    repeat' split
    all_goals rfl
  · simp only [ActionShowServices.run]
    repeat' split
    all_goals rfl

/-- C7 witness: the frame theorem applied at a concrete tracker. -/
theorem C7_no_state_mutation_witness :
    (ActionShowSchedule.run emptyTracker 0).events = [] ∧
    (ActionShowDelay.run emptyTracker).events = [] ∧
    (ActionCheckSchedule.run emptyTracker).events = [] ∧
    (ActionShowTicketPrice.run emptyTracker).events = [] ∧
    (ActionShowPlatform.run emptyTracker).events = [] ∧
    (ActionShowTrainType.run emptyTracker).events = [] ∧
    (ActionShowServices.run emptyTracker).events = [] :=
  C7_no_state_mutation emptyTracker 0

end Chatbot
